import Mathlib

/-!
Verification of the project-fyr rollout/alert control system.

Shallow embedding of the repository's pure decision logic and of the
stateful repository operations (modelled as explicit state passing over
lists of records).  Timestamps are integers (seconds); Python dictionary
lookups are association-list lookups; Python truthiness of `or` chains is
modelled explicitly where the source relies on it.
-/

namespace ProjectFyr

/-- Python `dict.get(k)`: first binding wins (assoc-list lookup). -/
def pyGet (d : List (String × String)) (k : String) : Option String :=
  (d.find? (fun p => p.1 = k)).map (·.2)

/-- Python `x or y` on optional strings: `None` and `""` are falsy. -/
def pyStrOr (x : Option String) (y : Option String) : Option String :=
  match x with
  | none => y
  | some "" => y
  | some s => some s

/-- Python `x or y` on optional ints: `None` and `0` are falsy. -/
def pyIntOr (x : Option Int) (y : Option Int) : Option Int :=
  match x with
  | none => y
  | some 0 => y
  | some n => some n

/-! ### Deployment objects and phase evaluation (service.py) -/

/-- A deployment status condition (`type` / `status` pair). -/
structure DepCondition where
  ctype : String
  cstatus : String
deriving Repr, DecidableEq

/-- The `status` sub-object of a deployment, as read defensively by the
source (`available_replicas` with `availableReplicas` fallback). -/
structure DepStatus where
  available_replicas : Option Int
  availableReplicas : Option Int
  conditions : Option (List DepCondition)
deriving Repr, DecidableEq

/-- The slice of a workload object consumed by `evaluate_deployment_phase`
and `handle_deployment_event`: metadata, spec.replicas, status. -/
structure Deployment where
  namespace_ : String
  name : String
  generation : Option Int
  labels : List (String × String)
  replicas : Option Int
  status : Option DepStatus
deriving Repr, DecidableEq

/-- Source: `{c.type: c.status for c in conditions}` followed by `.get(t)`:
a later condition of the same type overwrites an earlier one, so the
lookup returns the status of the last matching condition. -/
def condLookup (cs : List DepCondition) (t : String) : Option String :=
  (cs.reverse.find? (fun c => c.ctype = t)).map (·.cstatus)

/-- Source: `available = getattr(status, "available_replicas", None) or
getattr(status, "availableReplicas", None)` (service.py line 365). -/
def depAvailable (dep : Deployment) : Option Int :=
  pyIntOr (dep.status.bind (·.available_replicas)) (dep.status.bind (·.availableReplicas))

/-- Source: `desired = getattr(dep.spec, "replicas", 0) or 0` (service.py line 366). -/
def depDesired (dep : Deployment) : Int :=
  match dep.replicas with
  | none => 0
  | some 0 => 0
  | some n => n

/-- Source: `getattr(status, "conditions", []) or []` (service.py line 367). -/
def depConditions (dep : Deployment) : List DepCondition :=
  match dep.status.bind (·.conditions) with
  | none => []
  | some cs => cs

/-- Source: `evaluate_deployment_phase` (service.py lines 361-375). -/
def evaluate_deployment_phase (dep : Deployment) : String :=
  let available := depAvailable dep
  let desired := depDesired dep
  let conditions := depConditions dep
  match available with
  | some a =>
      if desired > 0 ∧ a ≥ desired then "STABLE"
      else if condLookup conditions "Progressing" = some "False" then "FAILED_PROGRESS"
      else if condLookup conditions "Available" = some "False" then "PENDING"
      else "ROLLING_OUT"
  | none =>
      if condLookup conditions "Progressing" = some "False" then "FAILED_PROGRESS"
      else if condLookup conditions "Available" = some "False" then "PENDING"
      else "ROLLING_OUT"

/-! ### Pod failure signals and the early-failure rule (service.py) -/

/-- Source: `PodFailureSignals` dataclass (service.py lines 386-391). -/
structure PodFailureSignals where
  crashloop_pods : Nat := 0
  image_pull_pods : Nat := 0
  pending_scheduling_pods : Nat := 0
  total_pods : Nat := 0
deriving Repr, DecidableEq

/-- Source: `should_fail_early` (service.py lines 412-418). -/
def should_fail_early (signals : PodFailureSignals) (min_pods : Nat := 1) : Bool :=
  if signals.total_pods < min_pods then false
  else
    let failing := signals.crashloop_pods + signals.image_pull_pods
    if failing ≥ max 1 (signals.total_pods / 2) then true
    else false

/-! ### Rollout records and the watch/reconcile state machine -/

/-- Source: `RolloutStatus` enum (models.py). -/
inductive RolloutStatus
  | PENDING
  | ROLLING_OUT
  | SUCCESS
  | FAILED
deriving Repr, DecidableEq

/-- Source: `AnalysisStatus` enum (models.py). -/
inductive AnalysisStatus
  | PENDING
  | DONE
  | FAILED
deriving Repr, DecidableEq

/-- Source: `NotifyStatus` enum (models.py). -/
inductive NotifyStatus
  | PENDING
  | SENT
  | FAILED
deriving Repr, DecidableEq

/-- Metadata bundle returned by `parse_namespace_annotations` and passed to
`handle_deployment_event` as `namespace_metadata` (service.py). -/
structure NsMeta where
  metadata_json : Option (List (String × String)) := none
  team : Option String := none
  slack_channel : Option String := none
deriving Repr, DecidableEq

/-- A row of the `rollouts` table (db.py, class Rollout), restricted to the
columns the watch/reconcile/worker logic reads or writes. -/
structure RolloutRow where
  id : Nat
  cluster : String
  namespace_ : String
  deployment : String
  generation : Int
  status : RolloutStatus
  started_at : Option Int
  completed_at : Option Int := none
  failed_at : Option Int := none
  metadata_json : List (String × String) := []
  analysis_id : Option Nat := none
  analysis_status : AnalysisStatus := .PENDING
  notify_status : NotifyStatus := .PENDING
  team : Option String := none
  slack_channel : Option String := none
deriving Repr, DecidableEq

/-- The rollout identity predicate of `RolloutRepo.get_by_key`. -/
def keyMatch (cluster ns dep : String) (gen : Int) (r : RolloutRow) : Bool :=
  r.cluster == cluster && r.namespace_ == ns && r.deployment == dep && r.generation == gen

/-- Source: `RolloutRepo.get_by_key` (db.py lines 163-171): first row matching the
identity tuple `(cluster, namespace, deployment, generation)`. -/
def get_by_key (db : List RolloutRow) (cluster ns dep : String) (gen : Int) :
    Option RolloutRow :=
  db.find? (keyMatch cluster ns dep gen)

/-- Number of rows carrying a given rollout identity tuple. -/
def countKey (db : List RolloutRow) (cluster ns dep : String) (gen : Int) : Nat :=
  db.countP (keyMatch cluster ns dep gen)

/-- Source: `RolloutRepo.create` (db.py lines 155-161): append a fresh row; the
primary key is supplied by the store. -/
def repoCreate (db : List RolloutRow) (row : RolloutRow) : List RolloutRow :=
  db ++ [row]

/-- The per-row update of `RolloutRepo.update_metadata`: set only the
provided fields on the row with the given id. -/
def metaUpdateFn (rid : Nat) (meta : NsMeta) (r : RolloutRow) : RolloutRow :=
  if r.id = rid then
    { r with
      metadata_json := (meta.metadata_json).getD r.metadata_json
      team := match meta.team with | none => r.team | some t => some t
      slack_channel := match meta.slack_channel with | none => r.slack_channel | some c => some c }
  else r

/-- Source: `RolloutRepo.update_metadata` (db.py lines 342-362): a no-op when no
field is provided, otherwise update the row with the given id. -/
def update_metadata (db : List RolloutRow) (rid : Nat) (meta : NsMeta) :
    List RolloutRow :=
  if meta.metadata_json = none ∧ meta.team = none ∧ meta.slack_channel = none then db
  else db.map (metaUpdateFn rid meta)

/-- Source: `dep.metadata.generation or 1` (service.py line 492). -/
def effGeneration (dep : Deployment) : Int :=
  match dep.generation with
  | none => 1
  | some 0 => 1
  | some n => n

/-- The row created by `handle_deployment_event` for a new rollout
identity (service.py lines 500-512). -/
def newRolloutRow (dep : Deployment) (cluster : String) (nsMeta : NsMeta)
    (now : Int) (nextId : Nat) : RolloutRow :=
  { id := nextId
    cluster := cluster
    namespace_ := dep.namespace_
    deployment := dep.name
    generation := effGeneration dep
    status := if evaluate_deployment_phase dep = "PENDING" then
        RolloutStatus.PENDING else RolloutStatus.ROLLING_OUT
    started_at := some now
    metadata_json := (nsMeta.metadata_json).getD []
    team := nsMeta.team
    slack_channel := nsMeta.slack_channel }

/-- Source: `handle_deployment_event` (service.py lines 476-520).  Returns the
updated rollout table; `nextId` supplies the store-generated primary key of
a freshly created row. -/
def handle_deployment_event (dep : Deployment) (event_type : String)
    (db : List RolloutRow) (cluster : String) (nsMeta : NsMeta) (now : Int)
    (nextId : Nat) : List RolloutRow :=
  if event_type = "DELETED" then db
  else if pyGet dep.labels "project-fyr/enabled" ≠ some "true" then db
  else
    match get_by_key db cluster dep.namespace_ dep.name (effGeneration dep) with
    | none => repoCreate db (newRolloutRow dep cluster nsMeta now nextId)
    | some rollout =>
        if nsMeta = {} then db
        else update_metadata db rollout.id nsMeta

/-- The status update performed by one `reconcile_rollout` call
(service.py lines 523-560), abstracted as a decision. -/
inductive ReconcileAction
  | markFailed
  | markSuccess
  | setStatus (s : RolloutStatus)
  | noChange
deriving Repr, DecidableEq

/-- Source: `reconcile_rollout` (service.py lines 523-560) as a decision function.
`signals = none` models `core_v1 is None` or an exception while listing
pods (in both cases the early-failure check is skipped). -/
def reconcile_rollout (dep : Deployment) (rollout : RolloutRow) (now : Int)
    (timeout : Int) (signals : Option PodFailureSignals) : ReconcileAction :=
  let phase := evaluate_deployment_phase dep
  let started_at := rollout.started_at.getD now
  let age := now - started_at
  let earlyFail := match signals with
    | some s => should_fail_early s 1
    | none => false
  if earlyFail then .markFailed
  else if phase = "STABLE" then .markSuccess
  else if phase = "FAILED_PROGRESS" then .markFailed
  else if age > timeout then .markFailed
  else
    let newStatus := if phase = "PENDING" then RolloutStatus.PENDING else RolloutStatus.ROLLING_OUT
    if rollout.status ≠ newStatus then .setStatus newStatus
    else .noChange

/-! ### Alert webhook: intake, sticky throttling, state upsert (webhook.py, db.py) -/

/-- One element of the incoming `alerts` list (webhook.py lines 48-55).
Fields are optional because the JSON item may omit them. -/
structure AlertItem where
  status : Option String := none
  labels : List (String × String) := []
  annotations : List (String × String) := []
  fingerprint : Option String := none
deriving Repr, DecidableEq

/-- Source: `status = item.get("status", "firing")` (webhook.py line 50). -/
def itemStatus (it : AlertItem) : String :=
  it.status.getD "firing"

/-- Source: `fingerprint = item.get("fingerprint") or labels.get("alertname", "unknown")`
(webhook.py line 55): `None` and `""` are falsy. -/
def itemFingerprint (it : AlertItem) : String :=
  match it.fingerprint with
  | none => (pyGet it.labels "alertname").getD "unknown"
  | some "" => (pyGet it.labels "alertname").getD "unknown"
  | some s => s

/-- A row of the `alert_states` table (db.py, class AlertStateRecord). -/
structure AlertStateRow where
  fingerprint : String
  status : String
  last_received_at : Int
  last_investigated_at : Option Int
deriving Repr, DecidableEq

/-- Source: `AlertRepo.get_state` (db.py lines 448-451). -/
def get_state (db : List AlertStateRow) (fp : String) : Option AlertStateRow :=
  db.find? (fun r => r.fingerprint == fp)

/-- Source: `AlertRepo.update_state` (db.py lines 453-481): mutate the first row
with the given fingerprint, or insert a fresh one. -/
def update_state (db : List AlertStateRow) (fp status : String) (now : Int)
    (investigated : Bool) : List AlertStateRow :=
  match db with
  | [] => [⟨fp, status, now, if investigated then some now else none⟩]
  | r :: rs =>
      if r.fingerprint == fp then
        { r with
          status := status
          last_received_at := now
          last_investigated_at := if investigated then some now else r.last_investigated_at } :: rs
      else r :: update_state rs fp status now investigated

/-- Source: `timedelta(hours=24)` in seconds (webhook.py line 83). -/
def throttleWindow : Int := 24 * 3600

/-- The sticky-throttle check (webhook.py lines 80-85). -/
def is_throttled (state : Option AlertStateRow) (now : Int) : Bool :=
  match state with
  | none => false
  | some st =>
      match st.last_investigated_at with
      | none => false
      | some t => decide (now - t < throttleWindow)

/-- The `should_investigate` decision (webhook.py lines 74-102). -/
def should_investigate (status : String) (state : Option AlertStateRow)
    (now : Int) : Bool :=
  if status == "firing" then
    if is_throttled state now then false
    else
      match state with
      | none => true
      | some st =>
          if st.status == "resolved" then true
          else if st.status == "firing" then true
          else false
  else false

/-- Per-item stateful processing of one delivered alert (webhook.py lines
72-158): decide, then upsert the AlertStateRecord.  Returns the decision
and the updated `alert_states` table. -/
def processItem (db : List AlertStateRow) (it : AlertItem) (now : Int) :
    Bool × List AlertStateRow :=
  let status := itemStatus it
  let fp := itemFingerprint it
  let state := get_state db fp
  let inv := should_investigate status state now
  (inv, update_state db fp status now inv)

/-- The webhook loop over the `alerts` list (webhook.py lines 48-160):
returns `(saved_count, investigation_triggered_count, states)`. -/
def processItems (items : List AlertItem) (db : List AlertStateRow) (now : Int) :
    Nat × Nat × List AlertStateRow :=
  match items with
  | [] => (0, 0, db)
  | it :: rest =>
      let r := processItem db it now
      let rec' := processItems rest r.2 now
      (rec'.1 + 1, (if r.1 then rec'.2.1 + 1 else rec'.2.1), rec'.2.2)

/-- The value of the `alerts` key of the request body: a list of items, or
some other JSON value (`isinstance(alerts, list)` fails). -/
inductive AlertsField
  | ofList (items : List AlertItem)
  | nonList
deriving Repr, DecidableEq

/-- A parsed request body; `alertsField = none` models a JSON object
without an `alerts` key. -/
structure WebhookPayload where
  alertsField : Option AlertsField
deriving Repr, DecidableEq

/-- The webhook's HTTP outcome (webhook.py lines 28-163). -/
inductive WebhookResponse
  | badRequest
  | unauthorized
  | ignored
  | accepted (count : Nat) (triggered : Nat)
deriving Repr, DecidableEq

/-- Python truthiness of the configured secret: `None` and `""` disable
the auth check (webhook.py line 28). -/
def secretTruthy : Option String → Bool
  | none => false
  | some "" => false
  | some _ => true

/-- Source: `receive_alert` (webhook.py lines 21-163).  `body = none` models a
request whose JSON failed to parse. -/
def receive_alert (secret token : Option String) (body : Option WebhookPayload)
    (db : List AlertStateRow) (now : Int) : WebhookResponse × List AlertStateRow :=
  if secretTruthy secret ∧ token ≠ secret then (.unauthorized, db)
  else
    match body with
    | none => (.badRequest, db)
    | some payload =>
        match payload.alertsField with
        | some .nonList => (.ignored, db)
        | some (.ofList items) =>
            let r := processItems items db now
            (.accepted r.1 r.2.1, r.2.2)
        | none =>
            let r := processItems [] db now
            (.accepted r.1 r.2.1, r.2.2)

/-! ### Alert records, batches, jobs, incidents (db.py) -/

/-- A row of the `alerts` table (db.py, class AlertRecord), restricted to
the columns the batcher reads or writes. -/
structure AlertRow where
  id : Nat
  fingerprint : String
  status : String
  starts_at : Int
  ends_at : Option Int := none
  labels : List (String × String)
  received_at : Int
  batched : Bool := false
  batch_id : Option Nat := none
deriving Repr, DecidableEq

/-- A row of the `alert_batches` table (db.py, class AlertBatchRecord). -/
structure AlertBatchRow where
  id : Nat
  primary_fingerprint : String
  namespace_ : Option String
  service : Option String
  window_start : Int
  window_end : Int
  context_summary : String
deriving Repr, DecidableEq

/-- A row of the `investigation_jobs` table (db.py, class InvestigationJob). -/
structure JobRow where
  id : Nat
  type : String
  status : String
  rollout_id : Option Nat := none
  alert_batch_id : Option Nat := none
  namespace_incident_id : Option Nat := none
  analysis_id : Option Nat := none
  started_at : Option Int := none
  completed_at : Option Int := none
deriving Repr, DecidableEq

/-- A row of the `namespace_incidents` table (db.py, class
NamespaceIncidentRecord), restricted to the rate-limiter's columns. -/
structure NamespaceIncidentRow where
  id : Nat
  cluster : String
  namespace_ : String
  incident_type : String
  status : String
  started_at : Int
deriving Repr, DecidableEq

/-- Python truthiness for an optional string filter argument
(`if namespace:` treats `None` and `""` as absent). -/
def strTruthy : Option String → Bool
  | none => false
  | some "" => false
  | some _ => true

/-- Source: `NamespaceIncidentRepo.count_investigations_in_window` (db.py lines
610-639): rollouts plus incidents started within the trailing window,
filtered by cluster and optionally by namespace. -/
def count_investigations_in_window (rollouts : List RolloutRow)
    (incidents : List NamespaceIncidentRow) (cluster : String)
    (namespace_ : Option String) (now : Int) (hours : Int := 1) : Nat :=
  let cutoff := now - hours * 3600
  let rolloutCount := rollouts.countP (fun r =>
    r.cluster == cluster
    && (match r.started_at with | some t => decide (cutoff ≤ t) | none => false)
    && (if strTruthy namespace_ then decide (some r.namespace_ = namespace_) else true))
  let incidentCount := incidents.countP (fun i =>
    i.cluster == cluster
    && decide (cutoff ≤ i.started_at)
    && (if strTruthy namespace_ then decide (some i.namespace_ = namespace_) else true))
  rolloutCount + incidentCount

/-! ### The analysis worker (service.py) -/

/-- Source: `RolloutRepo.list_failed` (db.py lines 181-188). -/
def list_failed (db : List RolloutRow) (cluster : String) : List RolloutRow :=
  db.filter (fun r =>
    r.cluster == cluster
    && r.status == RolloutStatus.FAILED
    && r.analysis_status != AnalysisStatus.DONE)

/-- Source: `RolloutRepo.update_notify_status` (db.py lines 306-310). -/
def update_notify_status (db : List RolloutRow) (rid : Nat) (st : NotifyStatus) :
    List RolloutRow :=
  db.map (fun r => if r.id = rid then { r with notify_status := st } else r)

/-- Source: `RolloutRepo.append_analysis` (db.py lines 312-341): records the
analysis and marks the rollout `analysis_status = DONE`. -/
def append_analysis (db : List RolloutRow) (rid : Nat) (aid : Nat)
    (completed : Int) : List RolloutRow :=
  db.map (fun r =>
    if r.id = rid then
      { r with analysis_id := some aid, analysis_status := .DONE,
               completed_at := some completed }
    else r)

/-- One pass of the effective `AnalysisWorker.loop` body over failed
rollouts (service.py lines 582-641).  `agentOk r.id = false` models the
diagnostic call (or anything else in the try block) raising for that
rollout: the exception is caught and only logged, so the step leaves the
store untouched.  On success the notify status is recorded and the
analysis appended. -/
def workerTickRollouts (db : List RolloutRow) (cluster : String)
    (agentOk : Nat → Bool) (sent : Nat → Bool) (aid : Nat → Nat) (now : Int) :
    List RolloutRow :=
  (list_failed db cluster).foldl
    (fun st rollout =>
      if agentOk rollout.id then
        append_analysis
          (update_notify_status st rollout.id
            (if sent rollout.id then .SENT else .FAILED))
          rollout.id (aid rollout.id) now
      else st)
    db

/-- Source: `AlertRepo.get_pending_jobs` (db.py lines 418-421). -/
def get_pending_jobs (jobs : List JobRow) : List JobRow :=
  jobs.filter (fun j => j.status == "pending")

/-- Source: `AlertRepo.update_job_status` (db.py lines 442-446); the optional
timestamps model the `**timestamps` keyword arguments. -/
def update_job_status (jobs : List JobRow) (jid : Nat) (st : String)
    (started completed : Option Int := none) : List JobRow :=
  jobs.map (fun j =>
    if j.id = jid then
      { j with status := st
               started_at := started.elim j.started_at some
               completed_at := completed.elim j.completed_at some }
    else j)

/-- Source: `AlertRepo.get_batch` (db.py lines 432-435), applied to a job's
nullable `alert_batch_id`. -/
def get_batch (batches : List AlertBatchRow) (bid : Option Nat) :
    Option AlertBatchRow :=
  bid.bind (fun b => batches.find? (fun r => r.id == b))

/-- Source: `AnalysisWorker._process_alert_jobs` together with
`_investigate_alert_batch` (service.py lines 168-231): each pending job is
marked running, then done on success; a missing batch or a raised
exception from the diagnostic call marks the job failed.  No rate limiter
is consulted anywhere on this path. -/
def process_alert_jobs (jobs : List JobRow) (batches : List AlertBatchRow)
    (agentOk : Nat → Bool) (now : Int) : List JobRow :=
  (get_pending_jobs jobs).foldl
    (fun st job =>
      let running := update_job_status st job.id "running" (some now) none
      match get_batch batches job.alert_batch_id with
      | none => update_job_status running job.id "failed"
      | some _ =>
          if agentOk job.id then
            update_job_status running job.id "done" none (some now)
          else
            update_job_status running job.id "failed")
    jobs

/-! ### The alert correlator / batcher (service.py AlertBatcher, db.py AlertRepo) -/

/-- Stable insertion of one row into a list sorted by `received_at`
ascending (a row with an equal timestamp goes after the existing ones). -/
def sortInsert (a : AlertRow) : List AlertRow → List AlertRow
  | [] => [a]
  | b :: bs =>
      if b.received_at ≤ a.received_at then b :: sortInsert a bs
      else a :: b :: bs

/-- Stable sort by `received_at` ascending: the `ORDER BY received_at asc`
of `AlertRepo.get_unbatched_alerts` (db.py line 387). -/
def sortByReceived : List AlertRow → List AlertRow
  | [] => []
  | a :: rest => sortInsert a (sortByReceived rest)

/-- The row filter of `get_unbatched_alerts`: not yet batched and received
within the lookback window. -/
def unbatchedPred (window_start : Int) (a : AlertRow) : Bool :=
  !a.batched && decide (window_start ≤ a.received_at)

/-- Source: `AlertRepo.get_unbatched_alerts` (db.py lines 382-390). -/
def get_unbatched_alerts (alerts : List AlertRow) (window_start : Int) :
    List AlertRow :=
  sortByReceived (alerts.filter (unbatchedPred window_start))

/-- The batcher's full store: alerts, batches, jobs, and the
store-generated primary-key counters. -/
structure AlertDB where
  alerts : List AlertRow
  batches : List AlertBatchRow
  jobs : List JobRow
  nextBatchId : Nat
  nextJobId : Nat
deriving Repr, DecidableEq

/-- The correlation key `f"{ns}/{svc}"` (service.py lines 50-52):
namespace label or `"default"`, then first truthy of service/app labels or
`"unknown"`. -/
def batchKey (a : AlertRow) : String :=
  let ns := (pyGet a.labels "namespace").getD "default"
  let svc := ((pyStrOr (pyGet a.labels "service") (pyGet a.labels "app")).getD "unknown")
  ns ++ "/" ++ svc

/-- Source: `key.split("/", 1)` (service.py line 61). -/
def splitOnce (s : String) : String × String :=
  match s.splitOn "/" with
  | [] => (s, "")
  | [x] => (x, "")
  | x :: rest => (x, String.intercalate "/" rest)

/-- Python dict key order: first occurrence wins, duplicates dropped. -/
def dedupFirst (seen : List String) : List String → List String
  | [] => []
  | k :: ks =>
      if seen.contains k then dedupFirst seen ks
      else k :: dedupFirst (k :: seen) ks

/-- Source: `min(...)` over a nonempty generator (service.py line 74). -/
def intListMin : List Int → Int
  | [] => 0
  | x :: xs => xs.foldl min x

/-- Source: `max(...)` over a nonempty generator (service.py line 75). -/
def intListMax : List Int → Int
  | [] => 0
  | x :: xs => xs.foldl max x

/-- Source: `AlertRepo.create_batch` (db.py lines 392-416): insert the batch row,
mark every member alert `batched=true` with the new `batch_id`, and
enqueue one pending InvestigationJob of type `"alert"`. -/
def create_batch (db : AlertDB) (group : List AlertRow) (summary : String)
    (pfp : String) (ns svc : String) (ws we : Int) : AlertDB :=
  let bid := db.nextBatchId
  let ids := group.map (·.id)
  { alerts := db.alerts.map (fun a =>
      if ids.contains a.id then { a with batched := true, batch_id := some bid }
      else a)
    batches := db.batches ++
      [{ id := bid, primary_fingerprint := pfp, namespace_ := some ns,
         service := some svc, window_start := ws, window_end := we,
         context_summary := summary }]
    jobs := db.jobs ++
      [{ id := db.nextJobId, type := "alert", status := "pending",
         alert_batch_id := some bid }]
    nextBatchId := bid + 1
    nextJobId := db.nextJobId + 1 }

/-- The members of one correlation group: the snapshot's rows carrying the
given key. -/
def groupOf (alerts : List AlertRow) (k : String) : List AlertRow :=
  alerts.filter (fun a => batchKey a == k)

/-- The body of the per-group loop of `AlertBatcher.run_once`
(service.py lines 57-76). -/
def runOnceStep (alerts : List AlertRow) (min_count : Nat) (st : AlertDB)
    (k : String) : AlertDB :=
  let group := groupOf alerts k
  if group.length < min_count then st
  else
    let nsSvc := splitOnce k
    let alertNames := dedupFirst []
      (group.map (fun a => (pyGet a.labels "alertname").getD "unknown"))
    let summary := "Batch of " ++ toString group.length ++ " alerts for " ++ k ++
      ". Alerts: " ++ String.intercalate ", " alertNames
    create_batch st group summary
      ((group.head?.map (·.fingerprint)).getD "")
      nsSvc.1 nsSvc.2
      (intListMin (group.map (·.starts_at)))
      (intListMax (group.map (·.received_at)))

/-- Source: `AlertBatcher.run_once` (service.py lines 32-76). -/
def run_once (db : AlertDB) (now : Int) (window : Int) (min_count : Nat) :
    AlertDB :=
  let window_start := now - window
  let alerts := get_unbatched_alerts db.alerts window_start
  if alerts.isEmpty then db
  else
    let keys := dedupFirst [] (alerts.map batchKey)
    keys.foldl (runOnceStep alerts min_count) db

/-! ## Theorems -/

/-- C6: `evaluate_deployment_phase` is a pure deterministic function
returning STABLE exactly when the available replica count is present and
at least the desired count with desired positive; otherwise
FAILED_PROGRESS when the "Progressing" condition is explicitly False;
otherwise PENDING when the "Available" condition is explicitly False;
otherwise ROLLING_OUT.  In particular, with an empty condition list,
unavailable replicas and desired = 3 it returns ROLLING_OUT. -/
theorem evaluate_phase_characterization :
    (∀ dep : Deployment,
      (evaluate_deployment_phase dep = "STABLE" ↔
        ∃ a, depAvailable dep = some a ∧ 0 < depDesired dep ∧ depDesired dep ≤ a) ∧
      (evaluate_deployment_phase dep ≠ "STABLE" →
        condLookup (depConditions dep) "Progressing" = some "False" →
        evaluate_deployment_phase dep = "FAILED_PROGRESS") ∧
      (evaluate_deployment_phase dep ≠ "STABLE" →
        condLookup (depConditions dep) "Progressing" ≠ some "False" →
        condLookup (depConditions dep) "Available" = some "False" →
        evaluate_deployment_phase dep = "PENDING") ∧
      (evaluate_deployment_phase dep ≠ "STABLE" →
        condLookup (depConditions dep) "Progressing" ≠ some "False" →
        condLookup (depConditions dep) "Available" ≠ some "False" →
        evaluate_deployment_phase dep = "ROLLING_OUT")) ∧
    evaluate_deployment_phase
      { namespace_ := "ns", name := "app", generation := some 1, labels := [],
        replicas := some 3,
        status := some { available_replicas := some 0, availableReplicas := some 0,
                         conditions := some [] } } = "ROLLING_OUT" := by
  refine ⟨fun dep => ?_, by decide⟩
  unfold evaluate_deployment_phase
  cases h : depAvailable dep with
  | none =>
      simp only [h]
      refine ⟨by split_ifs <;> simp, ?_, ?_, ?_⟩ <;> intro hns <;> split_ifs <;> simp_all
  | some a =>
      simp only [h]
      by_cases hst : 0 < depDesired dep ∧ depDesired dep ≤ a
      · rw [if_pos (by exact ⟨hst.1, hst.2⟩)]
        refine ⟨by simp [hst], ?_, ?_, ?_⟩ <;> intro hns <;> simp_all
      · rw [if_neg (by intro hc; exact hst ⟨hc.1, hc.2⟩)]
        constructor
        · constructor
          · intro he
            exfalso
            revert he
            split_ifs <;> simp
          · rintro ⟨a', ha', h1, h2⟩
            injection ha' with haa
            subst haa
            exact absurd ⟨h1, h2⟩ hst
        · refine ⟨?_, ?_, ?_⟩ <;> intro hns <;> split_ifs <;> simp_all

/-- C6 witness: the PENDING branch of the characterization applied to a
concrete deployment whose "Available" condition is explicitly False. -/
theorem evaluate_phase_characterization_witness :
    evaluate_deployment_phase
      { namespace_ := "ns", name := "app", generation := some 1, labels := [],
        replicas := some 3,
        status := some { available_replicas := some 1, availableReplicas := none,
                         conditions := some [⟨"Available", "False"⟩] } } = "PENDING" :=
  (evaluate_phase_characterization.1 _).2.2.1 (by decide) (by decide) (by decide)

/-- C7: `should_fail_early` holds exactly when at least one pod is
observed and the crashloop plus image-pull count reaches
`max 1 (total / 2)`; 5 pods with 3 in CrashLoopBackOff trip it while 5
pods with 1 do not; and whenever it holds, `reconcile_rollout` marks the
rollout FAILED without applying phase evaluation. -/
theorem should_fail_early_characterization :
    (∀ s : PodFailureSignals,
      (should_fail_early s 1 = true ↔
        1 ≤ s.total_pods ∧
          max 1 (s.total_pods / 2) ≤ s.crashloop_pods + s.image_pull_pods)) ∧
    should_fail_early { total_pods := 5, crashloop_pods := 3 } 1 = true ∧
    should_fail_early { total_pods := 5, crashloop_pods := 1 } 1 = false ∧
    (∀ (dep : Deployment) (rollout : RolloutRow) (now timeout : Int)
        (s : PodFailureSignals),
      should_fail_early s 1 = true →
      reconcile_rollout dep rollout now timeout (some s) = .markFailed) := by
  refine ⟨fun s => ?_, by decide, by decide, fun dep rollout now timeout s hs => ?_⟩
  · unfold should_fail_early
    split_ifs <;> simp <;> omega
  · unfold reconcile_rollout
    simp [hs]

/-- C7 witness: the early-failure consequence at concrete inputs. -/
theorem should_fail_early_characterization_witness :
    reconcile_rollout
      { namespace_ := "ns", name := "app", generation := some 1, labels := [],
        replicas := some 3,
        status := some { available_replicas := some 3, availableReplicas := none,
                         conditions := some [] } }
      { id := 1, cluster := "c", namespace_ := "ns", deployment := "app",
        generation := 1, status := .ROLLING_OUT, started_at := some 0 }
      10 1000 (some { total_pods := 5, crashloop_pods := 3 }) = .markFailed :=
  should_fail_early_characterization.2.2.2 _ _ _ _ _ (by decide)

lemma metaUpdateFn_keyMatch (rid : Nat) (meta : NsMeta) (c n d : String) (g : Int)
    (r : RolloutRow) : keyMatch c n d g (metaUpdateFn rid meta r) = keyMatch c n d g r := by
  unfold metaUpdateFn
  split <;> rfl

lemma metaUpdateFn_empty (rid : Nat) (r : RolloutRow) :
    metaUpdateFn rid {} r = r := by
  unfold metaUpdateFn
  split <;> rfl

lemma update_metadata_length (db : List RolloutRow) (rid : Nat) (meta : NsMeta) :
    (update_metadata db rid meta).length = db.length := by
  unfold update_metadata
  split <;> simp

lemma countKey_update_metadata (db : List RolloutRow) (rid : Nat) (meta : NsMeta)
    (c n d : String) (g : Int) :
    countKey (update_metadata db rid meta) c n d g = countKey db c n d g := by
  unfold update_metadata countKey
  split
  · rfl
  · rw [List.countP_map]
    congr 1
    funext r
    exact metaUpdateFn_keyMatch rid meta c n d g r

lemma get_by_key_update_metadata (db : List RolloutRow) (rid : Nat) (meta : NsMeta)
    (c n d : String) (g : Int) :
    get_by_key (update_metadata db rid meta) c n d g =
      (get_by_key db c n d g).map (metaUpdateFn rid meta) := by
  unfold update_metadata get_by_key
  by_cases h : meta.metadata_json = none ∧ meta.team = none ∧ meta.slack_channel = none
  · rw [if_pos h]
    have hmeta : meta = {} := by
      obtain ⟨h1, h2, h3⟩ := h
      cases meta with
      | mk mj tm sc =>
          have e1 : mj = none := h1
          have e2 : tm = none := h2
          have e3 : sc = none := h3
          subst e1; subst e2; subst e3
          rfl
    subst hmeta
    cases List.find? (keyMatch c n d g) db <;> simp [metaUpdateFn_empty]
  · rw [if_neg h, List.find?_map]
    have hfn : keyMatch c n d g ∘ metaUpdateFn rid meta = keyMatch c n d g :=
      funext (fun r => metaUpdateFn_keyMatch rid meta c n d g r)
    rw [hfn]

lemma countKey_eq_zero_of_none (db : List RolloutRow) (c n d : String) (g : Int)
    (h : get_by_key db c n d g = none) : countKey db c n d g = 0 := by
  unfold get_by_key at h
  unfold countKey
  rw [List.countP_eq_zero]
  intro a ha
  simpa using List.find?_eq_none.mp h a ha

lemma keyMatch_newRolloutRow (dep : Deployment) (cluster : String) (nsMeta : NsMeta)
    (now : Int) (nextId : Nat) (c n d : String) (g : Int) :
    keyMatch c n d g (newRolloutRow dep cluster nsMeta now nextId) = true ↔
      (cluster = c ∧ dep.namespace_ = n ∧ dep.name = d ∧ effGeneration dep = g) := by
  simp [keyMatch, newRolloutRow, and_assoc]

/-- C9: at most one rollout record per identity tuple
`(cluster, namespace, deployment, generation)` — handling any deployment
event preserves the uniqueness bound for every identity, and handling the
same event a second time creates no second record (the table size is
unchanged). -/
theorem rollout_identity_unique :
    (∀ (db : List RolloutRow) (dep : Deployment) (event_type cluster : String)
        (nsMeta : NsMeta) (now : Int) (nextId : Nat) (c n d : String) (g : Int),
      countKey db c n d g ≤ 1 →
      countKey (handle_deployment_event dep event_type db cluster nsMeta now nextId)
        c n d g ≤ 1) ∧
    (∀ (db : List RolloutRow) (dep : Deployment) (event_type cluster : String)
        (nsMeta : NsMeta) (now : Int) (nextId nextId' : Nat),
      (handle_deployment_event dep event_type
          (handle_deployment_event dep event_type db cluster nsMeta now nextId)
          cluster nsMeta now nextId').length =
        (handle_deployment_event dep event_type db cluster nsMeta now nextId).length) := by
  constructor
  · intro db dep event_type cluster nsMeta now nextId c n d g hdb
    unfold handle_deployment_event
    by_cases h1 : event_type = "DELETED"
    · rw [if_pos h1]; exact hdb
    rw [if_neg h1]
    by_cases h2 : pyGet dep.labels "project-fyr/enabled" = some "true"
    · rw [if_neg (not_not_intro h2)]
      cases hk : get_by_key db cluster dep.namespace_ dep.name (effGeneration dep) with
      | none =>
          simp only [hk]
          unfold repoCreate countKey
          rw [List.countP_append]
          by_cases hm : keyMatch c n d g (newRolloutRow dep cluster nsMeta now nextId) = true
          · obtain ⟨hc, hn, hd, hg⟩ :=
              (keyMatch_newRolloutRow dep cluster nsMeta now nextId c n d g).mp hm
            have hz : countKey db c n d g = 0 := by
              rw [← hc, ← hn, ← hd, ← hg]
              exact countKey_eq_zero_of_none db _ _ _ _ hk
            unfold countKey at hz
            rw [hz]
            simp [List.countP_cons, hm]
          · have h0 : List.countP (keyMatch c n d g)
                [newRolloutRow dep cluster nsMeta now nextId] = 0 := by
              simp [List.countP_cons, hm]
            rw [h0]
            unfold countKey at hdb
            omega
      | some r =>
          simp only [hk]
          split
          · exact hdb
          · rw [countKey_update_metadata]
            exact hdb
    · rw [if_pos h2]
      exact hdb
  · intro db dep event_type cluster nsMeta now nextId nextId'
    by_cases h1 : event_type = "DELETED"
    · simp [handle_deployment_event, h1]
    by_cases h2 : pyGet dep.labels "project-fyr/enabled" = some "true"
    · cases hk : get_by_key db cluster dep.namespace_ dep.name (effGeneration dep) with
      | none =>
          have hfirst : handle_deployment_event dep event_type db cluster nsMeta now nextId =
              repoCreate db (newRolloutRow dep cluster nsMeta now nextId) := by
            unfold handle_deployment_event
            rw [if_neg h1, if_neg (not_not_intro h2)]
            simp only [hk]
          rw [hfirst]
          have hrowm : keyMatch cluster dep.namespace_ dep.name (effGeneration dep)
              (newRolloutRow dep cluster nsMeta now nextId) = true :=
            (keyMatch_newRolloutRow dep cluster nsMeta now nextId
              cluster dep.namespace_ dep.name (effGeneration dep)).mpr
              ⟨rfl, rfl, rfl, rfl⟩
          have hk2 : get_by_key (repoCreate db (newRolloutRow dep cluster nsMeta now nextId))
              cluster dep.namespace_ dep.name (effGeneration dep) =
              some (newRolloutRow dep cluster nsMeta now nextId) := by
            unfold get_by_key repoCreate
            rw [List.find?_append]
            unfold get_by_key at hk
            rw [hk]
            simp [List.find?, hrowm]
          unfold handle_deployment_event
          rw [if_neg h1, if_neg (not_not_intro h2)]
          simp only [hk2]
          split
          · rfl
          · exact update_metadata_length ..
      | some r =>
          have hfirst : handle_deployment_event dep event_type db cluster nsMeta now nextId =
              if nsMeta = {} then db else update_metadata db r.id nsMeta := by
            unfold handle_deployment_event
            rw [if_neg h1, if_neg (not_not_intro h2)]
            simp only [hk]
          rw [hfirst]
          by_cases hmm : nsMeta = {}
          · rw [if_pos hmm]
            unfold handle_deployment_event
            rw [if_neg h1, if_neg (not_not_intro h2)]
            simp only [hk, if_pos hmm]
          · rw [if_neg hmm]
            have hk2 : get_by_key (update_metadata db r.id nsMeta) cluster
                dep.namespace_ dep.name (effGeneration dep) =
                some (metaUpdateFn r.id nsMeta r) := by
              rw [get_by_key_update_metadata, hk]
              rfl
            unfold handle_deployment_event
            rw [if_neg h1, if_neg (not_not_intro h2)]
            simp only [hk2, if_neg hmm]
            exact update_metadata_length ..
    · have hid : handle_deployment_event dep event_type db cluster nsMeta now nextId = db := by
        unfold handle_deployment_event
        rw [if_neg h1, if_pos h2]
      have hid' : handle_deployment_event dep event_type db cluster nsMeta now nextId' = db := by
        unfold handle_deployment_event
        rw [if_neg h1, if_pos h2]
      rw [hid, hid']

/-- C9 witness: the uniqueness bound applied to the empty table and a
concrete labelled deployment event. -/
theorem rollout_identity_unique_witness :
    countKey
      (handle_deployment_event
        { namespace_ := "ns", name := "app", generation := some 2,
          labels := [("project-fyr/enabled", "true")], replicas := some 1,
          status := none }
        "ADDED" [] "c" {} 0 1)
      "c" "ns" "app" 2 ≤ 1 :=
  rollout_identity_unique.1 [] _ "ADDED" "c" {} 0 1 "c" "ns" "app" 2 (by decide)

lemma get_state_update_state (db : List AlertStateRow) (fp status : String)
    (now : Int) (inv : Bool) :
    get_state (update_state db fp status now inv) fp =
      some { fingerprint := fp, status := status, last_received_at := now,
             last_investigated_at := if inv then some now
               else ((get_state db fp).bind (·.last_investigated_at)) } := by
  induction db with
  | nil => simp [update_state, get_state, List.find?]
  | cons r rs ih =>
      by_cases h : r.fingerprint = fp
      · have hb : (r.fingerprint == fp) = true := by simp [h]
        unfold update_state get_state
        simp [List.find?_cons, hb, h]
      · have hb : (r.fingerprint == fp) = false := by simp [h]
        unfold update_state get_state
        unfold get_state at ih
        simp [List.find?_cons, hb, ih]

lemma should_investigate_iff (status : String) (prior : Option AlertStateRow)
    (now : Int) :
    should_investigate status prior now = true ↔
      (status = "firing" ∧ is_throttled prior now = false ∧
        (prior = none ∨ ∃ st, prior = some st ∧
          (st.status = "resolved" ∨ st.status = "firing"))) := by
  unfold should_investigate
  by_cases hs : status = "firing"
  · subst hs
    simp only [beq_self_eq_true, if_true, true_and]
    cases hthr : is_throttled prior now
    · cases prior with
      | none => simp
      | some st =>
          by_cases h1 : st.status = "resolved"
          · simp [h1]
          · by_cases h2 : st.status = "firing" <;> simp [h1, h2]
    · cases prior with
      | none => simp [hthr]
      | some st =>
          by_cases h1 : st.status = "resolved"
          · simp [h1, hthr]
          · by_cases h2 : st.status = "firing" <;> simp [h1, h2, hthr]
  · have hb : (status == "firing") = false := by simp [hs]
    simp [hb, hs]

/-- C1 counterexample: the biconditional "should_investigate is true
exactly when the incoming status is firing and the fingerprint is not
throttled" fails on a reachable state.  A first delivery with status
"pending" stores that status; the next delivery for the same fingerprint
is firing and unthrottled, yet no investigation is triggered. -/
theorem alert_decision_biconditional_fails :
    itemStatus { status := some "firing", fingerprint := some "fp" } = "firing" ∧
    is_throttled
      (get_state (processItem [] { status := some "pending", fingerprint := some "fp" } 0).2
        (itemFingerprint { status := some "firing", fingerprint := some "fp" }))
      10 = false ∧
    (processItem (processItem [] { status := some "pending", fingerprint := some "fp" } 0).2
      { status := some "firing", fingerprint := some "fp" } 10).1 = false := by
  decide

/-- C1 (amended): for each delivered alert item, `should_investigate` is
true exactly when the incoming status is "firing", the fingerprint is not
throttled, and additionally the stored state (when one exists) has status
"resolved" or "firing"; a "resolved" delivery never investigates; and the
AlertStateRecord is upserted with status = incoming status,
last_received_at = now, and last_investigated_at set to now only if
should_investigate (otherwise the prior value is preserved). -/
theorem alert_intake_decision :
    ∀ (it : AlertItem) (db : List AlertStateRow) (now : Int),
      ((processItem db it now).1 = true ↔
        (itemStatus it = "firing" ∧
          is_throttled (get_state db (itemFingerprint it)) now = false ∧
          (get_state db (itemFingerprint it) = none ∨
            ∃ st, get_state db (itemFingerprint it) = some st ∧
              (st.status = "resolved" ∨ st.status = "firing")))) ∧
      (itemStatus it = "resolved" → (processItem db it now).1 = false) ∧
      (get_state (processItem db it now).2 (itemFingerprint it) =
        some { fingerprint := itemFingerprint it, status := itemStatus it,
               last_received_at := now,
               last_investigated_at :=
                 if (processItem db it now).1 then some now
                 else ((get_state db (itemFingerprint it)).bind (·.last_investigated_at)) }) := by
  intro it db now
  refine ⟨?_, ?_, ?_⟩
  · exact should_investigate_iff (itemStatus it) (get_state db (itemFingerprint it)) now
  · intro hres
    unfold processItem
    dsimp only
    unfold should_investigate
    have hb : (itemStatus it == "firing") = false := by simp [hres]
    simp [hb]
  · unfold processItem
    dsimp only
    exact get_state_update_state db (itemFingerprint it) (itemStatus it) now _

/-- C1 witness: a firing delivery on an empty state table triggers an
investigation and stamps `last_investigated_at`. -/
theorem alert_intake_decision_witness :
    get_state (processItem [] { status := some "firing", fingerprint := some "fp-1" } 7).2
      (itemFingerprint { status := some "firing", fingerprint := some "fp-1" }) =
      some { fingerprint := "fp-1", status := "firing", last_received_at := 7,
             last_investigated_at := some 7 } := by
  have h := (alert_intake_decision
    { status := some "firing", fingerprint := some "fp-1" } [] 7).2.2
  rw [show (processItem [] { status := some "firing", fingerprint := some "fp-1" } 7).1 = true
    from by decide] at h
  simpa using h

lemma processItems_count (items : List AlertItem) (db : List AlertStateRow)
    (now : Int) : (processItems items db now).1 = items.length := by
  induction items generalizing db with
  | nil => rfl
  | cons it rest ih =>
      unfold processItems
      simp [ih]

/-- C5 counterexample: a request body without an `alerts` key is answered
202 `accepted` with count 0 (the key defaults to an empty list), not
`ignored` as the claim states. -/
theorem webhook_missing_key_not_ignored :
    (receive_alert none none (some { alertsField := none }) [] 0).1 =
      WebhookResponse.accepted 0 0 ∧
    (receive_alert none none (some { alertsField := none }) [] 0).1 ≠
      WebhookResponse.ignored := by
  decide

/-- C5 (amended): with the auth check passing, a malformed JSON body is
rejected with 400; a body whose `alerts` key holds a non-list value is
answered 202 `ignored`; a body without an `alerts` key is answered 202
`accepted` with count 0 and triggered 0 (the missing key defaults to an
empty list); and a body carrying an alerts list is answered 202 `accepted`
with count = number of items and triggered = number of investigations. -/
theorem webhook_response_shape :
    ∀ (secret token : Option String) (body : Option WebhookPayload)
      (db : List AlertStateRow) (now : Int),
      ¬(secretTruthy secret = true ∧ token ≠ secret) →
      ((body = none → (receive_alert secret token body db now).1 = .badRequest) ∧
       (∀ p, body = some p → p.alertsField = some .nonList →
         (receive_alert secret token body db now).1 = .ignored) ∧
       (∀ p, body = some p → p.alertsField = none →
         (receive_alert secret token body db now).1 = .accepted 0 0) ∧
       (∀ p items, body = some p → p.alertsField = some (.ofList items) →
         (receive_alert secret token body db now).1 =
           .accepted items.length (processItems items db now).2.1)) := by
  intro secret token body db now hauth
  unfold receive_alert
  rw [if_neg hauth]
  refine ⟨?_, ?_, ?_, ?_⟩
  · rintro rfl
    rfl
  · rintro p rfl hp
    simp only [hp]
  · rintro p rfl hp
    simp only [hp]
    rfl
  · rintro p items rfl hp
    simp only [hp]
    rw [processItems_count]

/-- C5 witness: the `ignored` branch applied to a concrete body whose
`alerts` key is not a list. -/
theorem webhook_response_shape_witness :
    (receive_alert none none (some { alertsField := some .nonList }) [] 0).1 =
      WebhookResponse.ignored :=
  (webhook_response_shape none none (some { alertsField := some .nonList }) [] 0
    (by decide)).2.1 _ rfl rfl

/-- C10: a missing or empty `fingerprint` field falls back to the
`alertname` label, and to the constant "unknown" when that label is absent
too; consequently two fingerprint-less, alertname-less alerts share one
AlertStateRecord, so an investigation triggered by the first throttles the
second for the whole throttle window. -/
theorem fingerprint_fallback :
    (∀ it : AlertItem,
      ((it.fingerprint = none ∨ it.fingerprint = some "") →
        itemFingerprint it = (pyGet it.labels "alertname").getD "unknown") ∧
      ((it.fingerprint = none ∨ it.fingerprint = some "") →
        pyGet it.labels "alertname" = none →
        itemFingerprint it = "unknown")) ∧
    (∀ (it1 it2 : AlertItem) (db : List AlertStateRow) (t0 d : Int),
      it1.fingerprint = none ∨ it1.fingerprint = some "" →
      it2.fingerprint = none ∨ it2.fingerprint = some "" →
      pyGet it1.labels "alertname" = none →
      pyGet it2.labels "alertname" = none →
      (processItem db it1 t0).1 = true →
      0 ≤ d → d < throttleWindow →
      (processItem (processItem db it1 t0).2 it2 (t0 + d)).1 = false) := by
  constructor
  · intro it
    constructor
    · intro h
      rcases h with h | h <;> simp [itemFingerprint, h]
    · intro h ha
      rcases h with h | h <;> simp [itemFingerprint, h, ha]
  · intro it1 it2 db t0 d h1 h2 ha1 ha2 hinv hd0 hdw
    have hfp1 : itemFingerprint it1 = "unknown" := by
      rcases h1 with h | h <;> simp [itemFingerprint, h, ha1]
    have hfp2 : itemFingerprint it2 = "unknown" := by
      rcases h2 with h | h <;> simp [itemFingerprint, h, ha2]
    have hstate : get_state (processItem db it1 t0).2 "unknown" =
        some { fingerprint := "unknown", status := itemStatus it1,
               last_received_at := t0, last_investigated_at := some t0 } := by
      have hi : should_investigate (itemStatus it1) (get_state db "unknown") t0 = true := by
        have h := hinv
        unfold processItem at h
        dsimp only at h
        rwa [hfp1] at h
      unfold processItem
      dsimp only
      rw [hfp1, hi]
      simpa using get_state_update_state db "unknown" (itemStatus it1) t0 true
    have hred : (processItem (processItem db it1 t0).2 it2 (t0 + d)).1 =
        should_investigate (itemStatus it2)
          (get_state (processItem db it1 t0).2 (itemFingerprint it2)) (t0 + d) := rfl
    rw [hred, hfp2, hstate]
    have hthr : is_throttled
        (some { fingerprint := "unknown", status := itemStatus it1,
                last_received_at := t0, last_investigated_at := some t0 })
        (t0 + d) = true := by
      unfold is_throttled
      have he : t0 + d - t0 = d := by ring
      simp only [he]
      exact decide_eq_true hdw
    by_cases hs : itemStatus it2 = "firing"
    · have hb : (itemStatus it2 == "firing") = true := by simp [hs]
      simp [should_investigate, hb, hthr]
    · have hb : (itemStatus it2 == "firing") = false := by simp [hs]
      simp [should_investigate, hb]

/-- C10 witness: two concrete fingerprint-less, alertname-less firing
alerts: the first investigation throttles the second five seconds later. -/
theorem fingerprint_fallback_witness :
    (processItem
      (processItem [] { status := some "firing", labels := [("severity", "high")] } 0).2
      { status := some "firing", labels := [("team", "infra")] } (0 + 5)).1 = false :=
  fingerprint_fallback.2
    { status := some "firing", labels := [("severity", "high")] }
    { status := some "firing", labels := [("team", "infra")] }
    [] 0 5 (Or.inl rfl) (Or.inl rfl) (by decide) (by decide) (by decide)
    (by decide) (by decide)

lemma foldl_const {α β : Type} (l : List β) (init : α) :
    l.foldl (fun s _ => s) init = init := by
  induction l generalizing init with
  | nil => rfl
  | cons b bs ih => exact ih init

lemma process_alert_jobs_fail_aux (batches : List AlertBatchRow) (now : Int) :
    ∀ (rem : List JobRow) (st : List JobRow),
      (∀ r ∈ st, r.status = "pending" → r.id ∈ rem.map (·.id)) →
      ∀ r ∈ rem.foldl
        (fun st job =>
          let running := update_job_status st job.id "running" (some now) none
          match get_batch batches job.alert_batch_id with
          | none => update_job_status running job.id "failed"
          | some _ =>
              if (fun _ => false) job.id then
                update_job_status running job.id "done" none (some now)
              else
                update_job_status running job.id "failed")
        st,
      r.status ≠ "pending" := by
  intro rem
  induction rem with
  | nil =>
      intro st hinv r hr hpend
      exact absurd (hinv r hr hpend) (by simp)
  | cons j rest ih =>
      intro st hinv
      rw [List.foldl_cons]
      apply ih
      intro r' hr' hpend'
      have hstep : (let running := update_job_status st j.id "running" (some now) none
          match get_batch batches j.alert_batch_id with
          | none => update_job_status running j.id "failed"
          | some _ =>
              if (fun _ => false) j.id then
                update_job_status running j.id "done" none (some now)
              else
                update_job_status running j.id "failed") =
          update_job_status (update_job_status st j.id "running" (some now) none)
            j.id "failed" := by
        cases get_batch batches j.alert_batch_id <;> simp
      rw [hstep] at hr'
      unfold update_job_status at hr'
      rw [List.mem_map] at hr'
      obtain ⟨r1, hr1, rfl⟩ := hr'
      rw [List.mem_map] at hr1
      obtain ⟨r0, hr0, rfl⟩ := hr1
      by_cases hid : r0.id = j.id
      · exfalso
        revert hpend'
        simp [hid]
      · simp only [if_neg hid] at hpend' ⊢
        have := hinv r0 hr0 hpend'
        simp only [List.map_cons, List.mem_cons] at this
        rcases this with h | h
        · exact absurd h hid
        · exact h

/-- C3 counterexample: a failed rollout whose diagnostic call raises is
left with analysis_status PENDING (not FAILED) and is selected again by
`list_failed` on the next worker tick, i.e. it is automatically retried. -/
theorem diagnostic_exception_retries :
    workerTickRollouts
      [{ id := 1, cluster := "c", namespace_ := "ns", deployment := "app",
         generation := 1, status := .FAILED, started_at := some 0 }]
      "c" (fun _ => false) (fun _ => true) (fun _ => 7) 100 =
      [{ id := 1, cluster := "c", namespace_ := "ns", deployment := "app",
         generation := 1, status := .FAILED, started_at := some 0 }] ∧
    ({ id := 1, cluster := "c", namespace_ := "ns", deployment := "app",
       generation := 1, status := .FAILED, started_at := some 0 } : RolloutRow).analysis_status =
      .PENDING ∧
    ({ id := 1, cluster := "c", namespace_ := "ns", deployment := "app",
       generation := 1, status := .FAILED, started_at := some 0 } : RolloutRow) ∈
      list_failed
        (workerTickRollouts
          [{ id := 1, cluster := "c", namespace_ := "ns", deployment := "app",
             generation := 1, status := .FAILED, started_at := some 0 }]
          "c" (fun _ => false) (fun _ => true) (fun _ => 7) 100)
        "c" := by
  decide

/-- C3 (amended): when the diagnostic call raises while processing a
failed rollout, the worker only logs the error: no status field changes
(analysis_status stays as it was, not FAILED) and the rollout is selected
again by `list_failed` on every subsequent tick.  When it raises while
processing a pending alert job, the job's status is set to "failed" and no
job is left pending, so alert jobs are not retried. -/
theorem diagnostic_exception_behavior :
    (∀ (db : List RolloutRow) (cluster : String) (sent : Nat → Bool)
        (aid : Nat → Nat) (now : Int),
      workerTickRollouts db cluster (fun _ => false) sent aid now = db) ∧
    (∀ (db : List RolloutRow) (cluster : String) (sent : Nat → Bool)
        (aid : Nat → Nat) (now : Int) (r : RolloutRow),
      r ∈ list_failed db cluster →
      r ∈ list_failed (workerTickRollouts db cluster (fun _ => false) sent aid now)
        cluster) ∧
    (∀ (jobs : List JobRow) (batches : List AlertBatchRow) (now : Int),
      get_pending_jobs (process_alert_jobs jobs batches (fun _ => false) now) = []) := by
  have hA : ∀ (db : List RolloutRow) (cluster : String) (sent : Nat → Bool)
      (aid : Nat → Nat) (now : Int),
      workerTickRollouts db cluster (fun _ => false) sent aid now = db := by
    intro db cluster sent aid now
    unfold workerTickRollouts
    exact foldl_const _ db
  refine ⟨hA, ?_, ?_⟩
  · intro db cluster sent aid now r hr
    rw [hA]
    exact hr
  · intro jobs batches now
    unfold get_pending_jobs
    rw [List.filter_eq_nil_iff]
    intro r hr
    have hnp : r.status ≠ "pending" := by
      apply process_alert_jobs_fail_aux batches now (get_pending_jobs jobs) jobs _ r
      · exact hr
      · intro r0 hr0 hp0
        rw [List.mem_map]
        exact ⟨r0, by simp [get_pending_jobs, List.mem_filter, hr0, hp0], rfl⟩
    simpa using hnp

/-- C3 witness: the retry consequence at a concrete failed rollout. -/
theorem diagnostic_exception_behavior_witness :
    ({ id := 2, cluster := "c", namespace_ := "n", deployment := "d",
       generation := 3, status := .FAILED, started_at := some 0 } : RolloutRow) ∈
      list_failed
        (workerTickRollouts
          [{ id := 2, cluster := "c", namespace_ := "n", deployment := "d",
             generation := 3, status := .FAILED, started_at := some 0 }]
          "c" (fun _ => false) (fun _ => false) (fun _ => 0) 50)
        "c" :=
  diagnostic_exception_behavior.2.1 _ "c" _ _ 50 _ (by decide)

/-- C2: the dispatch path never consults the rate limiter.  With three
rollouts started within the trailing hour in one namespace (so the
counting helper reports 3, above the configured cap of 2) and three
pending alert jobs, the worker executes all three jobs — none is left
pending — instead of executing exactly 2 and deferring 1. -/
theorem worker_ignores_rate_limit :
    count_investigations_in_window
      [{ id := 1, cluster := "c", namespace_ := "payments", deployment := "a",
         generation := 1, status := .FAILED, started_at := some 3000 },
       { id := 2, cluster := "c", namespace_ := "payments", deployment := "b",
         generation := 1, status := .FAILED, started_at := some 3100 },
       { id := 3, cluster := "c", namespace_ := "payments", deployment := "e",
         generation := 1, status := .FAILED, started_at := some 3200 }]
      [] "c" (some "payments") 3600 1 = 3 ∧
    (process_alert_jobs
      [{ id := 1, type := "alert", status := "pending", alert_batch_id := some 1 },
       { id := 2, type := "alert", status := "pending", alert_batch_id := some 2 },
       { id := 3, type := "alert", status := "pending", alert_batch_id := some 3 }]
      [{ id := 1, primary_fingerprint := "f1", namespace_ := some "payments",
         service := some "a", window_start := 0, window_end := 1, context_summary := "s1" },
       { id := 2, primary_fingerprint := "f2", namespace_ := some "payments",
         service := some "b", window_start := 0, window_end := 1, context_summary := "s2" },
       { id := 3, primary_fingerprint := "f3", namespace_ := some "payments",
         service := some "e", window_start := 0, window_end := 1, context_summary := "s3" }]
      (fun _ => true) 3600).countP (fun j => j.status == "done") = 3 ∧
    get_pending_jobs
      (process_alert_jobs
        [{ id := 1, type := "alert", status := "pending", alert_batch_id := some 1 },
         { id := 2, type := "alert", status := "pending", alert_batch_id := some 2 },
         { id := 3, type := "alert", status := "pending", alert_batch_id := some 3 }]
        [{ id := 1, primary_fingerprint := "f1", namespace_ := some "payments",
           service := some "a", window_start := 0, window_end := 1, context_summary := "s1" },
         { id := 2, primary_fingerprint := "f2", namespace_ := some "payments",
           service := some "b", window_start := 0, window_end := 1, context_summary := "s2" },
         { id := 3, primary_fingerprint := "f3", namespace_ := some "payments",
           service := some "e", window_start := 0, window_end := 1, context_summary := "s3" }]
        (fun _ => true) 3600) = [] := by
  decide

/-- C4: contrary to the claim (and to the repository's own tests), the
watch handler requires the deployment label `project-fyr/enabled=true`
unconditionally: whenever that label is absent or not "true", the event is
skipped no matter what the namespace annotation or any watch-all
configuration says — the handler does not even take a configuration
argument.  The second conjunct evaluates the handler on the repository's
own test input (no labels, enabling namespace annotation): no rollout
record is created. -/
theorem watch_optin_requires_label :
    (∀ (db : List RolloutRow) (dep : Deployment) (event_type cluster : String)
        (nsMeta : NsMeta) (now : Int) (nextId : Nat),
      pyGet dep.labels "project-fyr/enabled" ≠ some "true" →
      handle_deployment_event dep event_type db cluster nsMeta now nextId = db) ∧
    handle_deployment_event
      { namespace_ := "test-ns", name := "test-app", generation := some 1,
        labels := [], replicas := some 1,
        status := some { available_replicas := some 0, availableReplicas := some 0,
                         conditions := some [] } }
      "ADDED" [] "test-cluster"
      { metadata_json := some [("project-fyr/enabled", "true")] } 0 1 = [] := by
  constructor
  · intro db dep event_type cluster nsMeta now nextId h
    unfold handle_deployment_event
    by_cases h1 : event_type = "DELETED"
    · rw [if_pos h1]
    · rw [if_neg h1, if_pos h]
  · decide

/-- C4 witness: the skip consequence applied to a concrete unlabelled
deployment event on a non-empty table. -/
theorem watch_optin_requires_label_witness :
    handle_deployment_event
      { namespace_ := "ns", name := "app", generation := some 5,
        labels := [("team", "payments")], replicas := some 2, status := none }
      "MODIFIED"
      [{ id := 9, cluster := "c", namespace_ := "x", deployment := "y",
         generation := 1, status := .SUCCESS, started_at := some 0 }]
      "c" {} 100 10 =
      [{ id := 9, cluster := "c", namespace_ := "x", deployment := "y",
         generation := 1, status := .SUCCESS, started_at := some 0 }] :=
  watch_optin_requires_label.1 _ _ "MODIFIED" "c" {} 100 10 (by decide)

lemma sortInsert_perm (a : AlertRow) (l : List AlertRow) :
    (sortInsert a l).Perm (a :: l) := by
  induction l with
  | nil => exact List.Perm.refl _
  | cons b bs ih =>
      unfold sortInsert
      by_cases h : b.received_at ≤ a.received_at
      · rw [if_pos h]
        exact (ih.cons b).trans (List.Perm.swap a b bs)
      · rw [if_neg h]

lemma sortByReceived_perm (l : List AlertRow) : (sortByReceived l).Perm l := by
  induction l with
  | nil => exact List.Perm.refl _
  | cons a as ih =>
      unfold sortByReceived
      exact (sortInsert_perm a (sortByReceived as)).trans (ih.cons a)

lemma mem_dedupFirst (x : String) :
    ∀ (l seen : List String),
      x ∈ dedupFirst seen l ↔ (x ∈ l ∧ seen.contains x = false) := by
  intro l
  induction l with
  | nil => intro seen; simp [dedupFirst]
  | cons k ks ih =>
      intro seen
      unfold dedupFirst
      by_cases hk : seen.contains k = true
      · rw [if_pos hk, ih seen]
        constructor
        · rintro ⟨hx, hs⟩
          exact ⟨List.mem_cons_of_mem _ hx, hs⟩
        · rintro ⟨hx, hs⟩
          rcases List.mem_cons.mp hx with rfl | hx'
          · rw [hs] at hk
            exact absurd hk (by simp)
          · exact ⟨hx', hs⟩
      · rw [if_neg hk]
        constructor
        · intro hx
          rcases List.mem_cons.mp hx with rfl | hx'
          · exact ⟨List.mem_cons_self _ _, by simpa using hk⟩
          · obtain ⟨h1, h2⟩ := (ih (k :: seen)).mp hx'
            rw [List.contains_cons] at h2
            simp only [Bool.or_eq_false_iff] at h2
            exact ⟨List.mem_cons_of_mem _ h1, h2.2⟩
        · rintro ⟨hx, hs⟩
          rcases List.mem_cons.mp hx with rfl | hx'
          · exact List.mem_cons_self _ _
          · by_cases hxk : x = k
            · subst hxk
              exact List.mem_cons_self _ _
            · refine List.mem_cons_of_mem _ ((ih (k :: seen)).mpr ⟨hx', ?_⟩)
              rw [List.contains_cons]
              simp only [Bool.or_eq_false_iff]
              exact ⟨by simp [hxk], hs⟩

/-- How one batcher pass may change a stored alert row: either untouched,
or marked batched with some batch id (all other fields preserved). -/
def MarkedFrom (orig new : AlertRow) : Prop :=
  new = orig ∨ ∃ b, new = { orig with batched := true, batch_id := some b }

lemma MarkedFrom.refl (a : AlertRow) : MarkedFrom a a := Or.inl rfl

lemma MarkedFrom.id_eq {o n : AlertRow} (h : MarkedFrom o n) : n.id = o.id := by
  rcases h with rfl | ⟨b, rfl⟩ <;> rfl

lemma MarkedFrom.labels_eq {o n : AlertRow} (h : MarkedFrom o n) :
    n.labels = o.labels := by
  rcases h with rfl | ⟨b, rfl⟩ <;> rfl

lemma MarkedFrom.received_eq {o n : AlertRow} (h : MarkedFrom o n) :
    n.received_at = o.received_at := by
  rcases h with rfl | ⟨b, rfl⟩ <;> rfl

lemma MarkedFrom.of_unbatched {o n : AlertRow} (h : MarkedFrom o n)
    (hb : n.batched = false) : n = o := by
  rcases h with rfl | ⟨b, rfl⟩
  · rfl
  · exact absurd hb (by simp)

lemma MarkedFrom.mark {o n : AlertRow} (h : MarkedFrom o n) (ids : List Nat)
    (b : Nat) :
    MarkedFrom o
      (if ids.contains n.id then { n with batched := true, batch_id := some b }
       else n) := by
  by_cases hc : ids.contains n.id = true
  · rw [if_pos hc]
    rcases h with rfl | ⟨b', rfl⟩
    · exact Or.inr ⟨b, rfl⟩
    · exact Or.inr ⟨b, rfl⟩
  · rw [if_neg hc]
    exact h

lemma mark_batched_mono (n : AlertRow) (ids : List Nat) (b : Nat)
    (h : n.batched = true) :
    (if ids.contains n.id then { n with batched := true, batch_id := some b }
     else n).batched = true := by
  by_cases hc : ids.contains n.id = true
  · rw [if_pos hc]
  · rw [if_neg hc]
    exact h

lemma groupOf_eligible_length (X : List AlertRow) (ws : Int) (k : String) :
    (groupOf (get_unbatched_alerts X ws) k).length =
      X.countP (fun a => (batchKey a == k) && unbatchedPred ws a) := by
  unfold groupOf get_unbatched_alerts
  rw [((sortByReceived_perm (X.filter (unbatchedPred ws))).filter
    (fun a => batchKey a == k)).length_eq]
  rw [← List.countP_eq_length_filter, List.countP_filter]

lemma foldl_runOnceStep_fixed (alerts : List AlertRow) (m : Nat) :
    ∀ (ks : List String) (st : AlertDB),
      (∀ k ∈ ks, (groupOf alerts k).length < m) →
      ks.foldl (runOnceStep alerts m) st = st := by
  intro ks
  induction ks with
  | nil => intro st _; rfl
  | cons k rest ih =>
      intro st h
      rw [List.foldl_cons]
      rw [show runOnceStep alerts m st k = st from by
        unfold runOnceStep
        rw [if_pos (h k (List.mem_cons_self _ _))]]
      exact ih st (fun k' hk' => h k' (List.mem_cons_of_mem _ hk'))

/-- Invariant of the batcher's per-group fold: the alert table is a
pointwise marking of the original one; every eligible alert of a group
meeting the size threshold is already marked or its key is still to be
processed; batches and jobs only grow, each new batch paired with one new
pending alert job. -/
def RunInv (db : AlertDB) (ws : Int) (min_count : Nat) (rem : List String)
    (st : AlertDB) : Prop :=
  ∃ F : AlertRow → AlertRow,
    st.alerts = db.alerts.map F ∧
    (∀ a, MarkedFrom a (F a)) ∧
    (∀ a ∈ db.alerts, unbatchedPred ws a = true →
      min_count ≤ (groupOf (get_unbatched_alerts db.alerts ws) (batchKey a)).length →
      ((F a).batched = true ∨ batchKey a ∈ rem)) ∧
    ∃ newBs newJs,
      st.batches = db.batches ++ newBs ∧
      st.jobs = db.jobs ++ newJs ∧
      newJs.length = newBs.length ∧
      (∀ j ∈ newJs, j.type = "alert" ∧ j.status = "pending")

lemma create_batch_alerts (st : AlertDB) (group : List AlertRow)
    (summary pfp ns svc : String) (wS wE : Int) :
    (create_batch st group summary pfp ns svc wS wE).alerts =
      st.alerts.map (fun a =>
        if (group.map (·.id)).contains a.id then
          { a with batched := true, batch_id := some st.nextBatchId }
        else a) := rfl

lemma create_batch_shape (st : AlertDB) (group : List AlertRow)
    (summary pfp ns svc : String) (wS wE : Int) :
    ∃ b jb,
      (create_batch st group summary pfp ns svc wS wE).batches = st.batches ++ [b] ∧
      (create_batch st group summary pfp ns svc wS wE).jobs = st.jobs ++ [jb] ∧
      jb.type = "alert" ∧ jb.status = "pending" :=
  ⟨_, _, rfl, rfl, rfl, rfl⟩

lemma create_batch_inv (db : AlertDB) (ws : Int) (min_count : Nat)
    (k0 : String) (rest : List String) (st : AlertDB)
    (summary pfp ns svc : String) (wS wE : Int)
    (h : RunInv db ws min_count (k0 :: rest) st) :
    RunInv db ws min_count rest
      (create_batch st (groupOf (get_unbatched_alerts db.alerts ws) k0)
        summary pfp ns svc wS wE) := by
  obtain ⟨F, hA, hM, hP, newBs, newJs, hB, hJ, hL, hT⟩ := h
  obtain ⟨b, jb, hbB, hbJ, hbT, hbS⟩ :=
    create_batch_shape st (groupOf (get_unbatched_alerts db.alerts ws) k0)
      summary pfp ns svc wS wE
  refine ⟨fun a =>
    if ((groupOf (get_unbatched_alerts db.alerts ws) k0).map (·.id)).contains (F a).id
    then { F a with batched := true, batch_id := some st.nextBatchId }
    else F a, ?_, ?_, ?_, newBs ++ [b], newJs ++ [jb], ?_, ?_, ?_, ?_⟩
  · rw [create_batch_alerts, hA, List.map_map]
    rfl
  · intro a
    exact (hM a).mark _ _
  · intro a ha hpred hmin
    rcases hP a ha hpred hmin with hb | hkrem
    · exact Or.inl (mark_batched_mono _ _ _ hb)
    · rcases List.mem_cons.mp hkrem with hke | hkr
      · left
        have hmem : a ∈ get_unbatched_alerts db.alerts ws := by
          unfold get_unbatched_alerts
          rw [(sortByReceived_perm _).mem_iff]
          exact List.mem_filter.mpr ⟨ha, hpred⟩
        have hgrp : a ∈ groupOf (get_unbatched_alerts db.alerts ws) k0 := by
          unfold groupOf
          refine List.mem_filter.mpr ⟨hmem, ?_⟩
          simp [hke]
        have hid : a.id ∈ (groupOf (get_unbatched_alerts db.alerts ws) k0).map (·.id) :=
          List.mem_map_of_mem _ hgrp
        have hidF : ((groupOf (get_unbatched_alerts db.alerts ws) k0).map (·.id)).contains
            (F a).id = true := by
          rw [(hM a).id_eq]
          simpa [List.contains, List.elem_iff] using hid
        dsimp only
        rw [if_pos hidF]
      · exact Or.inr hkr
  · rw [hbB, hB, List.append_assoc]
  · rw [hbJ, hJ, List.append_assoc]
  · simp [hL]
  · intro j hj
    rcases List.mem_append.mp hj with hj' | hj'
    · exact hT j hj'
    · rw [List.mem_singleton] at hj'
      subst hj'
      exact ⟨hbT, hbS⟩

lemma runOnceStep_inv (db : AlertDB) (ws : Int) (min_count : Nat)
    (k0 : String) (rest : List String) (st : AlertDB)
    (h : RunInv db ws min_count (k0 :: rest) st) :
    RunInv db ws min_count rest
      (runOnceStep (get_unbatched_alerts db.alerts ws) min_count st k0) := by
  unfold runOnceStep
  by_cases hg : (groupOf (get_unbatched_alerts db.alerts ws) k0).length < min_count
  · rw [if_pos hg]
    obtain ⟨F, hA, hM, hP, newBs, newJs, hB, hJ, hL, hT⟩ := h
    refine ⟨F, hA, hM, ?_, newBs, newJs, hB, hJ, hL, hT⟩
    intro a ha hpred hmin
    rcases hP a ha hpred hmin with hb | hkrem
    · exact Or.inl hb
    · rcases List.mem_cons.mp hkrem with hke | hkr
      · rw [hke] at hmin
        omega
      · exact Or.inr hkr
  · rw [if_neg hg]
    exact create_batch_inv db ws min_count k0 rest st _ _ _ _ _ _ h

lemma runOnce_fold_inv (db : AlertDB) (ws : Int) (min_count : Nat) :
    ∀ (rem : List String) (st : AlertDB),
      RunInv db ws min_count rem st →
      RunInv db ws min_count []
        (rem.foldl (runOnceStep (get_unbatched_alerts db.alerts ws) min_count) st) := by
  intro rem
  induction rem with
  | nil => intro st h; exact h
  | cons k rest ih =>
      intro st h
      rw [List.foldl_cons]
      exact ih _ (runOnceStep_inv db ws min_count k rest st h)

lemma run_once_spec (db : AlertDB) (now window : Int) (min_count : Nat) :
    RunInv db (now - window) min_count [] (run_once db now window min_count) := by
  unfold run_once
  by_cases he : (get_unbatched_alerts db.alerts (now - window)).isEmpty = true
  · rw [if_pos he]
    refine ⟨id, by simp, fun a => MarkedFrom.refl a, ?_, [], [], by simp, by simp,
      rfl, by simp⟩
    intro a ha hpred hmin
    exfalso
    have hmem : a ∈ get_unbatched_alerts db.alerts (now - window) := by
      unfold get_unbatched_alerts
      rw [(sortByReceived_perm _).mem_iff]
      exact List.mem_filter.mpr ⟨ha, hpred⟩
    rw [List.isEmpty_iff.mp he] at hmem
    exact List.not_mem_nil a hmem
  · rw [if_neg he]
    apply runOnce_fold_inv
    refine ⟨id, by simp, fun a => MarkedFrom.refl a, ?_, [], [], by simp, by simp,
      rfl, by simp⟩
    intro a ha hpred hmin
    right
    rw [mem_dedupFirst]
    refine ⟨?_, by simp [List.contains]⟩
    apply List.mem_map_of_mem
    unfold get_unbatched_alerts
    rw [(sortByReceived_perm _).mem_iff]
    exact List.mem_filter.mpr ⟨ha, hpred⟩

lemma batchKey_eq_of_labels {o n : AlertRow} (h : n.labels = o.labels) :
    batchKey n = batchKey o := by
  unfold batchKey
  rw [h]

/-- C8: the alert batcher is idempotent.  One pass only appends batches,
each paired with one new pending InvestigationJob of type "alert", and
leaves every still-unbatched alert row untouched (so every member of a
created batch was marked batched); and a second pass run at any later
time over the same stored alerts (none arriving in between) is the
identity — in particular it creates no duplicate batches. -/
theorem batcher_idempotent :
    (∀ (db : AlertDB) (now window : Int) (min_count : Nat),
      ∃ newBatches newJobs,
        (run_once db now window min_count).batches = db.batches ++ newBatches ∧
        (run_once db now window min_count).jobs = db.jobs ++ newJobs ∧
        newJobs.length = newBatches.length ∧
        (∀ j ∈ newJobs, j.type = "alert" ∧ j.status = "pending") ∧
        (∀ a ∈ (run_once db now window min_count).alerts, a.batched = false →
          a ∈ db.alerts)) ∧
    (∀ (db : AlertDB) (now now' window : Int) (min_count : Nat),
      now ≤ now' →
      run_once (run_once db now window min_count) now' window min_count =
        run_once db now window min_count) := by
  constructor
  · intro db now window m
    obtain ⟨F, hA, hM, hP, newBs, newJs, hB, hJ, hL, hT⟩ := run_once_spec db now window m
    refine ⟨newBs, newJs, hB, hJ, hL, hT, ?_⟩
    intro a ha hub
    rw [hA] at ha
    obtain ⟨a0, ha0, rfl⟩ := List.mem_map.mp ha
    rw [(hM a0).of_unbatched hub]
    exact ha0
  · intro db now now' window m hnow
    obtain ⟨F, hA, hM, hP, newBs, newJs, hB, hJ, hL, hT⟩ := run_once_spec db now window m
    set db1 := run_once db now window m with hdb1
    unfold run_once
    by_cases he : (get_unbatched_alerts db1.alerts (now' - window)).isEmpty = true
    · rw [if_pos he]
    · rw [if_neg he]
      apply foldl_runOnceStep_fixed
      intro k hk
      rw [mem_dedupFirst] at hk
      obtain ⟨hkmem, -⟩ := hk
      obtain ⟨a2, ha2, hka⟩ := List.mem_map.mp hkmem
      have ha2' : a2 ∈ db1.alerts ∧ unbatchedPred (now' - window) a2 = true := by
        unfold get_unbatched_alerts at ha2
        rw [(sortByReceived_perm _).mem_iff] at ha2
        exact List.mem_filter.mp ha2
      obtain ⟨ha2m, ha2p⟩ := ha2'
      have hub2 : a2.batched = false := by
        unfold unbatchedPred at ha2p
        rw [Bool.and_eq_true] at ha2p
        simpa using ha2p.1
      have hrec2 : now' - window ≤ a2.received_at := by
        unfold unbatchedPred at ha2p
        rw [Bool.and_eq_true] at ha2p
        exact of_decide_eq_true ha2p.2
      rw [hA] at ha2m
      obtain ⟨a0, ha0, hFa0⟩ := List.mem_map.mp ha2m
      have hFb : (F a0).batched = false := by
        rw [hFa0]
        exact hub2
      have heqF : F a0 = a0 := (hM a0).of_unbatched hFb
      have ha20 : a2 = a0 := by rw [← hFa0, heqF]
      have hrec0 : now' - window ≤ a0.received_at := ha20 ▸ hrec2
      have hb0 : a0.batched = false := ha20 ▸ hub2
      have hk0 : batchKey a0 = k := ha20 ▸ hka
      have hp0 : unbatchedPred (now - window) a0 = true := by
        unfold unbatchedPred
        rw [Bool.and_eq_true]
        exact ⟨by simp [hb0], decide_eq_true (by omega)⟩
      by_cases hbig :
          m ≤ (groupOf (get_unbatched_alerts db.alerts (now - window)) (batchKey a0)).length
      · exfalso
        rcases hP a0 ha0 hp0 hbig with hbat | hmem'
        · rw [heqF, hb0] at hbat
          exact Bool.false_ne_true hbat
        · exact List.not_mem_nil _ hmem'
      · push_neg at hbig
        rw [groupOf_eligible_length]
        calc db1.alerts.countP
              (fun a => (batchKey a == k) && unbatchedPred (now' - window) a)
            ≤ db.alerts.countP
              (fun a => (batchKey a == k) && unbatchedPred (now - window) a) := by
              rw [hA, List.countP_map]
              apply List.countP_mono_left
              intro x hx hq
              simp only [Function.comp] at hq
              rw [Bool.and_eq_true] at hq
              obtain ⟨hq1, hq2⟩ := hq
              have hxub : (F x).batched = false := by
                unfold unbatchedPred at hq2
                rw [Bool.and_eq_true] at hq2
                simpa using hq2.1
              have hxrec : now' - window ≤ (F x).received_at := by
                unfold unbatchedPred at hq2
                rw [Bool.and_eq_true] at hq2
                exact of_decide_eq_true hq2.2
              have hxeq : F x = x := (hM x).of_unbatched hxub
              rw [hxeq] at hq1 hxub hxrec
              rw [Bool.and_eq_true]
              refine ⟨hq1, ?_⟩
              unfold unbatchedPred
              rw [Bool.and_eq_true]
              exact ⟨by simp [hxub], decide_eq_true (by omega)⟩
          _ = (groupOf (get_unbatched_alerts db.alerts (now - window)) k).length :=
              (groupOf_eligible_length db.alerts (now - window) k).symm
          _ < m := by
              rw [← hk0]
              exact hbig

/-- C8 witness: a second pass at a later time over a store holding one
unbatched alert changes nothing. -/
theorem batcher_idempotent_witness :
    run_once
      (run_once
        { alerts := [{ id := 1, fingerprint := "f", status := "firing",
                       starts_at := 0, labels := [("namespace", "ns")],
                       received_at := 8 }],
          batches := [], jobs := [], nextBatchId := 1, nextJobId := 1 }
        10 5 1)
      12 5 1 =
      run_once
        { alerts := [{ id := 1, fingerprint := "f", status := "firing",
                       starts_at := 0, labels := [("namespace", "ns")],
                       received_at := 8 }],
          batches := [], jobs := [], nextBatchId := 1, nextJobId := 1 }
        10 5 1 :=
  batcher_idempotent.2 _ 10 12 5 1 (by decide)

end ProjectFyr
